import Mathlib

/-!
Verification of the health-insurance claim engine
(`python_src/claim_processor.py`) against its specification.

The Python module is embedded shallowly:
* Python `dict`s whose entries are iterated (`claims`, `patients`, `users`)
  become insertion-ordered association lists; the session `dict`, which is
  only read and written pointwise, becomes a partial map `String → Option String`.
* `float` amounts become `ℚ` (the module only compares and adds amounts;
  all constants are exactly representable).
* `datetime.now()` becomes an explicit `now : Nat` argument; `date` fields
  are opaque `Nat`s.
* Python's `ValueError`s, distinguished by their messages, become the
  error taxonomy `PyErr` (validation / referential / limit-exceeded).
* A fallible method returns `Except PyErr α × State`: the state component
  is the object's state when the call returns or raises (the Python code
  raises before any mutation, and the embedding mirrors the control flow
  statement by statement).
-/

/-- `ClaimStatus` enum of `claim_processor.py`. -/
inductive ClaimStatus where
  | pending
  | approved
  | rejected
  | processing
  | requires_review
deriving DecidableEq, Repr

/-- `UserType` enum of `claim_processor.py`. -/
inductive UserType where
  | patient
  | provider
  | payor
deriving DecidableEq, Repr

/-- Error taxonomy: the Python code raises `ValueError` with distinct
messages; the spec names them `ValidationError`, `ReferentialError`,
`LimitExceededError`. -/
inductive PyErr where
  | validation
  | referential
  | limitExceeded
deriving DecidableEq, Repr

/-- Association-list lookup: first entry whose key matches, mirroring a
Python `dict` point read (`d.get(k)` / `k in d`). -/
def dlookup {α : Type} (k : String) : List (String × α) → Option α
  | [] => none
  | (k', v) :: rest => if k' = k then some v else dlookup k rest

/-- Update the value stored at key `k` (first matching entry), mirroring the
in-place mutation of the object obtained from a Python `dict`. -/
def dupdate {α : Type} (k : String) (f : α → α) : List (String × α) → List (String × α)
  | [] => []
  | (k', v) :: rest => if k' = k then (k', f v) :: rest else (k', v) :: dupdate k f rest

/-- `Patient` dataclass. Validation (`__post_init__`) checks the email
format and a non-empty insurance id; claims about the engine take already
constructed patients, so the record itself is unconstrained. -/
structure Patient where
  id : String
  name : String
  email : String
  date_of_birth : Nat
  insurance_id : String
  phone : Option String
deriving DecidableEq, Repr

/-- `Claim` dataclass. -/
structure Claim where
  id : String
  patient_id : String
  provider_id : String
  amount : ℚ
  description : String
  date_of_service : Nat
  status : ClaimStatus
  created_at : Nat
  updated_at : Nat
deriving DecidableEq, Repr

/-- Python `str.strip()`: drop leading and trailing whitespace. -/
def pyStrip (s : String) : List Char :=
  ((s.toList.dropWhile Char.isWhitespace).reverse.dropWhile
    Char.isWhitespace).reverse

/-- `Claim.__post_init__`: timestamps default to now; fails when
`amount <= 0` or the stripped description is shorter than 5 characters
(`not self.description` is subsumed: an empty string strips to length 0).
Returns the constructed claim with the dataclass default
`status = PENDING`. -/
def mkClaim (id patient_id provider_id : String) (amount : ℚ)
    (description : String) (date_of_service now : Nat) :
    Except PyErr Claim :=
  if amount ≤ 0 then .error .validation
  else if (pyStrip description).length < 5 then .error .validation
  else .ok { id := id, patient_id := patient_id, provider_id := provider_id,
             amount := amount, description := description,
             date_of_service := date_of_service, status := .pending,
             created_at := now, updated_at := now }

/-- State of a `ClaimProcessor` instance. -/
structure ClaimProcessor where
  claims : List (String × Claim)
  patients : List (String × Patient)
  auto_approve_threshold : ℚ
  max_claim_amount : ℚ
deriving DecidableEq, Repr

/-- `ClaimProcessor.__init__`. -/
def ClaimProcessor.init : ClaimProcessor :=
  { claims := [], patients := [], auto_approve_threshold := 100,
    max_claim_amount := 50000 }

/-- `ClaimProcessor.register_patient`. -/
def ClaimProcessor.register_patient (s : ClaimProcessor) (p : Patient) :
    Bool × ClaimProcessor :=
  if (dlookup p.id s.patients).isSome then (false, s)
  else (true, { s with patients := s.patients ++ [(p.id, p)] })

/-- `ClaimProcessor._process_claim`: the auto-decision rule, mutating the
claim's status and `updated_at`. -/
def ClaimProcessor.process_claim (s : ClaimProcessor) (c : Claim) (now : Nat) :
    Claim :=
  let st :=
    if c.amount ≤ s.auto_approve_threshold then ClaimStatus.approved
    else if c.amount > 10000 then ClaimStatus.requires_review
    else ClaimStatus.processing
  { c with status := st, updated_at := now }

/-- `ClaimProcessor.submit_claim`: duplicate id → `False`; unregistered
patient → `ValueError("Patient not found")`; amount over
`max_claim_amount` → `ValueError("Claim amount exceeds ...")`; otherwise
store and run the auto-decision rule (the stored object and the processed
object are the same Python object). -/
def ClaimProcessor.submit_claim (s : ClaimProcessor) (c : Claim) (now : Nat) :
    Except PyErr Bool × ClaimProcessor :=
  if (dlookup c.id s.claims).isSome then (.ok false, s)
  else if (dlookup c.patient_id s.patients).isNone then (.error .referential, s)
  else if c.amount > s.max_claim_amount then (.error .limitExceeded, s)
  else
    let c' := s.process_claim c now
    (.ok true, { s with claims := s.claims ++ [(c.id, c')] })

/-- `ClaimProcessor.approve_claim`. -/
def ClaimProcessor.approve_claim (s : ClaimProcessor) (claim_id : String)
    (now : Nat) : Bool × ClaimProcessor :=
  match dlookup claim_id s.claims with
  | none => (false, s)
  | some c =>
    if c.status = .approved ∨ c.status = .rejected then (false, s)
    else
      let cls := dupdate claim_id
        (fun cl => { cl with status := .approved, updated_at := now }) s.claims
      (true, { s with claims := cls })

/-- `ClaimProcessor.reject_claim` (the `reason` argument is accepted and
discarded, as in the source). -/
def ClaimProcessor.reject_claim (s : ClaimProcessor) (claim_id : String)
    (_reason : String) (now : Nat) : Bool × ClaimProcessor :=
  match dlookup claim_id s.claims with
  | none => (false, s)
  | some c =>
    if c.status = .approved ∨ c.status = .rejected then (false, s)
    else
      let cls := dupdate claim_id
        (fun cl => { cl with status := .rejected, updated_at := now }) s.claims
      (true, { s with claims := cls })

/-- `ClaimProcessor.get_claim`. -/
def ClaimProcessor.get_claim (s : ClaimProcessor) (claim_id : String) :
    Option Claim :=
  dlookup claim_id s.claims

/-- `ClaimProcessor.get_patient`. -/
def ClaimProcessor.get_patient (s : ClaimProcessor) (patient_id : String) :
    Option Patient :=
  dlookup patient_id s.patients

/-- `ClaimProcessor.calculate_total_approved_amount`. -/
def ClaimProcessor.calculate_total_approved_amount (s : ClaimProcessor)
    (patient_id : String) : ℚ :=
  (((s.claims.map Prod.snd).filter
      (fun c => c.patient_id = patient_id ∧ c.status = .approved)).map
    Claim.amount).sum

/-- The regex `^[^@]+@[^@]+\.[^@]+$` shared by `Patient.__post_init__` and
`AuthenticationService.register_user`: a non-empty run of non-`@`
characters, one `@`, then a non-empty run of non-`@` characters containing
a `.` that is neither its first nor its last character. The guard
`not email or ...` is subsumed (the empty string has no `@`). -/
def emailValid (s : String) : Bool :=
  match s.toList.span (· ≠ '@') with
  | (loc, '@' :: rest) =>
    !loc.isEmpty && rest.all (· ≠ '@') && (rest.drop 1).dropLast.contains '.'
  | (_, _) => false

/-- A user record as stored by `register_user` (the `dict` literal of the
source, minus nothing: email, password, type, creation time, active flag). -/
structure UserRec where
  email : String
  password : String
  user_type : UserType
  created_at : Nat
  is_active : Bool
deriving DecidableEq, Repr

/-- State of an `AuthenticationService` instance. `active_sessions` is a
`dict` that is only ever read and written pointwise, so it is embedded as a
partial map from token to user id. -/
structure AuthenticationService where
  users : List (String × UserRec)
  active_sessions : String → Option String

/-- `AuthenticationService.__init__`. -/
def AuthenticationService.init : AuthenticationService :=
  { users := [], active_sessions := fun _ => none }

/-- `AuthenticationService.register_user`: duplicate id → `False`; bad
email or password shorter than 8 → `ValueError`; otherwise store the user
with `is_active = True` and return `True`. -/
def AuthenticationService.register_user (s : AuthenticationService)
    (user_id email password : String) (user_type : UserType) (now : Nat) :
    Except PyErr Bool × AuthenticationService :=
  if (dlookup user_id s.users).isSome then (.ok false, s)
  else if ¬ emailValid email then (.error .validation, s)
  else if password.length < 8 then (.error .validation, s)
  else
    let rec0 : UserRec :=
      { email := email, password := password, user_type := user_type,
        created_at := now, is_active := true }
    (.ok true, { s with users := s.users ++ [(user_id, rec0)] })

/-- `AuthenticationService.create_session`: the cryptographically random
`secrets.token_urlsafe(32)` value is supplied as the argument `token`;
the dict write `active_sessions[token] = user_id` becomes a pointwise
update, and the token is returned. -/
def AuthenticationService.create_session (s : AuthenticationService)
    (user_id token : String) : AuthenticationService × String :=
  ({ s with active_sessions :=
      fun t => if t = token then some user_id else s.active_sessions t },
   token)

/-- `AuthenticationService.validate_session`. -/
def AuthenticationService.validate_session (s : AuthenticationService)
    (token : String) : Option String :=
  s.active_sessions token

/-- `AuthenticationService.logout`. -/
def AuthenticationService.logout (s : AuthenticationService) (token : String) :
    Bool × AuthenticationService :=
  if (s.active_sessions token).isSome then
    (true, { s with active_sessions :=
      fun t => if t = token then none else s.active_sessions t })
  else (false, s)

/-- The amount bounds of §3 of the spec, read on the engine's stored
claims: every stored claim has a positive amount not exceeding the
configured ceiling. -/
def amountsInv (s : ClaimProcessor) : Prop :=
  ∀ e ∈ s.claims, 0 < (Prod.snd e).amount ∧
    (Prod.snd e).amount ≤ s.max_claim_amount

/-- Spec-side formulation of `calculate_total_approved_amount`: the sum,
over all stored claims, of the amount when the claim belongs to the
patient and is currently approved, and 0 otherwise. -/
def approvedSumSpec (s : ClaimProcessor) (pid : String) : ℚ :=
  ((s.claims.map Prod.snd).map
    (fun c => if c.patient_id = pid ∧ c.status = ClaimStatus.approved then
      c.amount else 0)).sum

/- Concrete values used to instantiate the theorems below. -/

/-- A valid sample patient. -/
def pat1 : Patient :=
  { id := "P1", name := "Alice Smith", email := "alice@example.com",
    date_of_birth := 0, insurance_id := "INS12345", phone := none }

/-- A different patient record reusing the identifier `"P1"`. -/
def pat1b : Patient :=
  { id := "P1", name := "Bob Jones", email := "bob@example.com",
    date_of_birth := 7, insurance_id := "INS99999", phone := some "555" }

/-- A claim for 75 (below the auto-approve threshold). -/
def claim75 : Claim :=
  { id := "C1", patient_id := "P1", provider_id := "PR1", amount := 75,
    description := "office visit", date_of_service := 1, status := .pending,
    created_at := 1, updated_at := 1 }

/-- A claim for 500 (between the thresholds). -/
def claim500 : Claim :=
  { id := "C2", patient_id := "P1", provider_id := "PR1", amount := 500,
    description := "laboratory work", date_of_service := 2, status := .pending,
    created_at := 2, updated_at := 2 }

/-- `claim500` as stored by submission at time 3 (status `processing`). -/
def claim500p : Claim :=
  { claim500 with status := .processing, updated_at := 3 }

/-- A claim reusing the stored id `"C1"` while referencing an unregistered
patient and exceeding the amount ceiling. -/
def ghostClaim : Claim :=
  { id := "C1", patient_id := "GHOST", provider_id := "PR1", amount := 60000,
    description := "phantom treatment", date_of_service := 3,
    status := .pending, created_at := 3, updated_at := 3 }

/-- The claim produced by constructing with amount 60000: construction
succeeds even though the amount exceeds `max_claim_amount`. -/
def bigClaim : Claim :=
  { id := "CX", patient_id := "P1", provider_id := "PR1", amount := 60000,
    description := "expensive surgery", date_of_service := 0,
    status := .pending, created_at := 0, updated_at := 0 }

/-- Fresh processor with `pat1` registered. -/
def procState1 : ClaimProcessor := (ClaimProcessor.init.register_patient pat1).2

/-- `procState1` after submitting `claim75` at time 2. -/
def procState2 : ClaimProcessor := (procState1.submit_claim claim75 2).2

/-- `procState2` after submitting `claim500` at time 3. -/
def procState3 : ClaimProcessor := (procState2.submit_claim claim500 3).2

/-- Auth service with one registered user `"u1"`. -/
def authState1 : AuthenticationService :=
  (AuthenticationService.init.register_user "u1" "alice@example.com"
    "password123" .patient 0).2

/- Helper lemmas about association lists. -/

theorem dlookup_append {α : Type} (k : String) (l₁ l₂ : List (String × α)) :
    dlookup k (l₁ ++ l₂) =
      ((dlookup k l₁).rec (dlookup k l₂) (fun v => some v) : Option α) := by
  induction l₁ with
  | nil => simp [dlookup]
  | cons hd tl ih =>
    obtain ⟨k', v⟩ := hd
    by_cases h : k' = k <;> simp [dlookup, h, ih]

theorem dlookup_dupdate_self {α : Type} (k : String) (f : α → α)
    (l : List (String × α)) :
    dlookup k (dupdate k f l) = (dlookup k l).map f := by
  induction l with
  | nil => simp [dlookup, dupdate]
  | cons hd tl ih =>
    obtain ⟨k', v⟩ := hd
    by_cases h : k' = k <;> simp [dlookup, dupdate, h, ih]

theorem dlookup_dupdate_ne {α : Type} (k k' : String) (f : α → α)
    (l : List (String × α)) (hne : k' ≠ k) :
    dlookup k' (dupdate k f l) = dlookup k' l := by
  induction l with
  | nil => simp [dupdate]
  | cons hd tl ih =>
    obtain ⟨k'', v⟩ := hd
    by_cases h : k'' = k
    · have h2 : ¬ (k'' = k') := by
        intro e
        exact hne (by rw [← e, h])
      have h3 : (k = k') = False := by
        refine eq_false ?_
        intro e
        exact hne e.symm
      simp [dlookup, dupdate, h, h2, h3]
    · simp [dlookup, dupdate, h, ih]

/-- C1: every claim accepted by `submit_claim` (return value `true`) is
stored with the status the auto-decision rule assigns, evaluated in order
(approved if `amount ≤ auto_approve_threshold`, else requires-review if
`amount > 10000`, else processing), and in particular is never observed in
status `pending` after submission. -/
theorem submit_claim_auto_decision (s : ClaimProcessor) (c : Claim)
    (now : Nat) (s' : ClaimProcessor)
    (h : s.submit_claim c now = (.ok true, s')) :
    ∃ c', s'.get_claim c.id = some c' ∧
      c'.status =
        (if c.amount ≤ s.auto_approve_threshold then ClaimStatus.approved
         else if c.amount > 10000 then ClaimStatus.requires_review
         else ClaimStatus.processing) ∧
      c'.status ≠ ClaimStatus.pending := by
  unfold ClaimProcessor.submit_claim at h
  by_cases h1 : (dlookup c.id s.claims).isSome
  · simp [h1] at h
  · by_cases h2 : (dlookup c.patient_id s.patients).isNone
    · simp [h1, h2] at h
    · by_cases h3 : c.amount > s.max_claim_amount
      · simp [h1, h2, h3] at h
      · simp only [h1, h2, h3, if_false, if_true, Bool.false_eq_true,
          if_neg, Prod.mk.injEq] at h
        obtain ⟨-, hs⟩ := h
        subst hs
        refine ⟨s.process_claim c now, ?_, ?_, ?_⟩
        · have h0 : dlookup c.id s.claims = none := by
            cases hx : dlookup c.id s.claims with
            | none => rfl
            | some v => rw [hx] at h1; simp at h1
          show dlookup c.id (s.claims ++ [(c.id, s.process_claim c now)]) = _
          rw [dlookup_append, h0]
          simp [dlookup]
        · simp [ClaimProcessor.process_claim]
        · simp only [ClaimProcessor.process_claim]
          split
          · simp
          · split <;> simp

/-- Witness for C1 at a concrete input: submitting `claim75` (amount 75,
below the threshold 100) to `procState1`. -/
theorem submit_claim_auto_decision_witness :
    ∃ c', procState2.get_claim claim75.id = some c' ∧
      c'.status =
        (if claim75.amount ≤ procState1.auto_approve_threshold then
          ClaimStatus.approved
         else if claim75.amount > 10000 then ClaimStatus.requires_review
         else ClaimStatus.processing) ∧
      c'.status ≠ ClaimStatus.pending :=
  submit_claim_auto_decision procState1 claim75 2 procState2 (by rfl)

/-- C9: when the submitted claim's id is already stored, `submit_claim`
returns `False` with the state unchanged — no exception is raised even if
the patient is unregistered or the amount exceeds the ceiling. -/
theorem submit_claim_duplicate_id_noop (s : ClaimProcessor) (c : Claim)
    (now : Nat) (h : (s.get_claim c.id).isSome) :
    s.submit_claim c now = (.ok false, s) := by
  have h' : (dlookup c.id s.claims).isSome = true := h
  unfold ClaimProcessor.submit_claim
  simp [h']

/-- Witness for C9: `ghostClaim` reuses the stored id `"C1"`, references an
unregistered patient and exceeds the ceiling, yet submission returns
`False` and changes nothing. -/
theorem submit_claim_duplicate_id_noop_witness :
    procState2.submit_claim ghostClaim 3 = (.ok false, procState2) :=
  submit_claim_duplicate_id_noop procState2 ghostClaim 3 (by decide)

/-- C6: registering a patient whose identifier is already present returns
`False`, raises nothing and leaves the whole state (hence the originally
stored record) unchanged; registering a fresh identifier stores the
patient and returns `True`. -/
theorem register_patient_spec (s : ClaimProcessor) (p : Patient) :
    (∀ q, s.get_patient p.id = some q →
      s.register_patient p = (false, s) ∧
      (s.register_patient p).2.get_patient p.id = some q) ∧
    (s.get_patient p.id = none →
      (s.register_patient p).1 = true ∧
      (s.register_patient p).2.get_patient p.id = some p) := by
  constructor
  · intro q hq
    have hq' : dlookup p.id s.patients = some q := hq
    have hs : s.register_patient p = (false, s) := by
      unfold ClaimProcessor.register_patient
      simp [hq']
    exact ⟨hs, by rw [hs]; exact hq⟩
  · intro hn
    have hn' : dlookup p.id s.patients = none := hn
    unfold ClaimProcessor.register_patient
    simp [hn']
    show dlookup p.id (s.patients ++ [(p.id, p)]) = some p
    rw [dlookup_append, hn']
    simp [dlookup]

/-- Witness for C6: re-registering id `"P1"` (as `pat1b`) on `procState1`
returns `False` and keeps `pat1`. -/
theorem register_patient_spec_witness :
    procState1.register_patient pat1b = (false, procState1) ∧
    (procState1.register_patient pat1b).2.get_patient "P1" = some pat1 :=
  (register_patient_spec procState1 pat1b).1 pat1 (by decide)

/-- C2 counterexample: `ghostClaim` reuses the stored id `"C1"`, its
patient `"GHOST"` is unregistered and its amount 60000 exceeds the ceiling
50000, yet `submit_claim` raises neither `ReferentialError` nor
`LimitExceededError`: it returns `False`. The claim's unconditional "always
fails" is refuted by the duplicate-id early return. -/
theorem duplicate_id_preempts_errors :
    procState2.get_patient ghostClaim.patient_id = none ∧
    ghostClaim.amount > procState2.max_claim_amount ∧
    procState2.submit_claim ghostClaim 3 = (.ok false, procState2) :=
  ⟨by decide, by decide, by rfl⟩

/-- C2 amended: for a claim whose id is not already stored, an
unregistered patient always yields `ReferentialError`, and (patient
registered) an amount over `max_claim_amount` always yields
`LimitExceededError`; in either failure the state — in particular the
claims map — is unchanged. -/
theorem submit_claim_error_cases (s : ClaimProcessor) (c : Claim)
    (now : Nat) (hfresh : s.get_claim c.id = none) :
    (s.get_patient c.patient_id = none →
      s.submit_claim c now = (.error .referential, s)) ∧
    ((s.get_patient c.patient_id).isSome → c.amount > s.max_claim_amount →
      s.submit_claim c now = (.error .limitExceeded, s)) := by
  have hfresh' : dlookup c.id s.claims = none := hfresh
  constructor
  · intro hp
    have hp' : dlookup c.patient_id s.patients = none := hp
    unfold ClaimProcessor.submit_claim
    simp [hfresh', hp']
  · intro hp hamt
    have hp' : (dlookup c.patient_id s.patients).isNone = false := by
      have : (dlookup c.patient_id s.patients).isSome = true := hp
      cases hx : dlookup c.patient_id s.patients with
      | none => rw [hx] at this; simp at this
      | some v => rfl
    unfold ClaimProcessor.submit_claim
    simp [hfresh', hp', hamt]

/-- Witness for C2 (amended): submitting `ghostClaim` (fresh id on
`procState1`, unregistered patient) raises `ReferentialError` and leaves
the state unchanged. -/
theorem submit_claim_error_cases_witness :
    procState1.submit_claim ghostClaim 3 = (.error .referential, procState1) :=
  (submit_claim_error_cases procState1 ghostClaim 3 (by decide)).1 (by decide)

/-- C3: `approve_claim` and `reject_claim` return `False` and leave the
state untouched when the claim is absent or already `approved`/`rejected`
(so those statuses are absorbing); otherwise they set the new status and
`updated_at` and return `True`. -/
theorem absorbing_status_transitions (s : ClaimProcessor)
    (cid reason : String) (now : Nat) :
    (s.get_claim cid = none →
      s.approve_claim cid now = (false, s) ∧
      s.reject_claim cid reason now = (false, s)) ∧
    (∀ c, s.get_claim cid = some c →
      (c.status = ClaimStatus.approved ∨ c.status = ClaimStatus.rejected) →
      s.approve_claim cid now = (false, s) ∧
      s.reject_claim cid reason now = (false, s)) ∧
    (∀ c, s.get_claim cid = some c →
      c.status ≠ ClaimStatus.approved → c.status ≠ ClaimStatus.rejected →
      ((s.approve_claim cid now).1 = true ∧
        (s.approve_claim cid now).2.get_claim cid =
          some { c with status := ClaimStatus.approved, updated_at := now }) ∧
      ((s.reject_claim cid reason now).1 = true ∧
        (s.reject_claim cid reason now).2.get_claim cid =
          some { c with status := ClaimStatus.rejected, updated_at := now })) := by
  refine ⟨?_, ?_, ?_⟩
  · intro hn
    have hn' : dlookup cid s.claims = none := hn
    unfold ClaimProcessor.approve_claim ClaimProcessor.reject_claim
    rw [hn']
    exact ⟨rfl, rfl⟩
  · intro c hc habs
    have hc' : dlookup cid s.claims = some c := hc
    unfold ClaimProcessor.approve_claim ClaimProcessor.reject_claim
    rw [hc']
    simp [habs]
  · intro c hc h1 h2
    have hc' : dlookup cid s.claims = some c := hc
    have hcond : ¬(c.status = ClaimStatus.approved ∨
        c.status = ClaimStatus.rejected) := by
      rintro (h | h)
      · exact h1 h
      · exact h2 h
    have happ : s.approve_claim cid now =
        (true, { s with claims := dupdate cid (fun cl => { cl with status := ClaimStatus.approved, updated_at := now }) s.claims }) := by
      unfold ClaimProcessor.approve_claim
      rw [hc']
      simp [hcond]
    have hrej : s.reject_claim cid reason now =
        (true, { s with claims := dupdate cid (fun cl => { cl with status := ClaimStatus.rejected, updated_at := now }) s.claims }) := by
      unfold ClaimProcessor.reject_claim
      rw [hc']
      simp [hcond]
    constructor
    · rw [happ]
      refine ⟨rfl, ?_⟩
      show dlookup cid (dupdate cid _ s.claims) = _
      rw [dlookup_dupdate_self, hc']
      rfl
    · rw [hrej]
      refine ⟨rfl, ?_⟩
      show dlookup cid (dupdate cid _ s.claims) = _
      rw [dlookup_dupdate_self, hc']
      rfl

/-- Witness for C3: manually approving the `processing` claim `"C2"` of
`procState3` returns `True` and stores it as approved with the new
timestamp. -/
theorem absorbing_status_transitions_witness :
    (procState3.approve_claim "C2" 4).1 = true ∧
    (procState3.approve_claim "C2" 4).2.get_claim "C2" =
      some { claim500p with status := ClaimStatus.approved, updated_at := 4 } :=
  ((absorbing_status_transitions procState3 "C2" "" 4).2.2 claim500p
    (by decide) (by decide) (by decide)).1

/-- C10: when `approve_claim` or `reject_claim` returns `True`, the only
state change is the status and `updated_at` of the named claim: patients,
both thresholds and every other stored claim are exactly as before. -/
theorem approve_reject_frame (s : ClaimProcessor) (cid reason : String)
    (now : Nat) :
    ((s.approve_claim cid now).1 = true →
      (s.approve_claim cid now).2.patients = s.patients ∧
      (s.approve_claim cid now).2.auto_approve_threshold =
        s.auto_approve_threshold ∧
      (s.approve_claim cid now).2.max_claim_amount = s.max_claim_amount ∧
      (∀ k, k ≠ cid →
        (s.approve_claim cid now).2.get_claim k = s.get_claim k) ∧
      (∃ c, s.get_claim cid = some c ∧
        (s.approve_claim cid now).2.get_claim cid =
          some { c with status := ClaimStatus.approved, updated_at := now })) ∧
    ((s.reject_claim cid reason now).1 = true →
      (s.reject_claim cid reason now).2.patients = s.patients ∧
      (s.reject_claim cid reason now).2.auto_approve_threshold =
        s.auto_approve_threshold ∧
      (s.reject_claim cid reason now).2.max_claim_amount =
        s.max_claim_amount ∧
      (∀ k, k ≠ cid →
        (s.reject_claim cid reason now).2.get_claim k = s.get_claim k) ∧
      (∃ c, s.get_claim cid = some c ∧
        (s.reject_claim cid reason now).2.get_claim cid =
          some { c with status := ClaimStatus.rejected, updated_at := now })) := by
  constructor
  · intro htrue
    cases hc : dlookup cid s.claims with
    | none =>
      unfold ClaimProcessor.approve_claim at htrue
      rw [hc] at htrue
      simp at htrue
    | some c =>
      by_cases habs : c.status = ClaimStatus.approved ∨
          c.status = ClaimStatus.rejected
      · unfold ClaimProcessor.approve_claim at htrue
        rw [hc] at htrue
        simp [habs] at htrue
      · have happ : s.approve_claim cid now =
            (true, { s with claims := dupdate cid (fun cl => { cl with status := ClaimStatus.approved, updated_at := now }) s.claims }) := by
          unfold ClaimProcessor.approve_claim
          rw [hc]
          simp [habs]
        rw [happ]
        refine ⟨rfl, rfl, rfl, ?_, ⟨c, hc, ?_⟩⟩
        · intro k hk
          show dlookup k (dupdate cid _ s.claims) = dlookup k s.claims
          exact dlookup_dupdate_ne cid k _ s.claims hk
        · show dlookup cid (dupdate cid _ s.claims) = _
          rw [dlookup_dupdate_self, hc]
          rfl
  · intro htrue
    cases hc : dlookup cid s.claims with
    | none =>
      unfold ClaimProcessor.reject_claim at htrue
      rw [hc] at htrue
      simp at htrue
    | some c =>
      by_cases habs : c.status = ClaimStatus.approved ∨
          c.status = ClaimStatus.rejected
      · unfold ClaimProcessor.reject_claim at htrue
        rw [hc] at htrue
        simp [habs] at htrue
      · have hrej : s.reject_claim cid reason now =
            (true, { s with claims := dupdate cid (fun cl => { cl with status := ClaimStatus.rejected, updated_at := now }) s.claims }) := by
          unfold ClaimProcessor.reject_claim
          rw [hc]
          simp [habs]
        rw [hrej]
        refine ⟨rfl, rfl, rfl, ?_, ⟨c, hc, ?_⟩⟩
        · intro k hk
          show dlookup k (dupdate cid _ s.claims) = dlookup k s.claims
          exact dlookup_dupdate_ne cid k _ s.claims hk
        · show dlookup cid (dupdate cid _ s.claims) = _
          rw [dlookup_dupdate_self, hc]
          rfl

/-- Witness for C10: approving `"C2"` on `procState3` succeeds, keeps the
patient registry and keeps the sibling claim `"C1"`. -/
theorem approve_reject_frame_witness :
    (procState3.approve_claim "C2" 4).2.patients = procState3.patients ∧
    (procState3.approve_claim "C2" 4).2.get_claim "C1" =
      procState3.get_claim "C1" ∧
    (∃ c, procState3.get_claim "C2" = some c ∧
      (procState3.approve_claim "C2" 4).2.get_claim "C2" =
        some { c with status := ClaimStatus.approved, updated_at := 4 }) := by
  have h := (approve_reject_frame procState3 "C2" "" 4).1 (by rfl)
  exact ⟨h.1, h.2.2.2.1 "C1" (by decide), h.2.2.2.2⟩

/-- Properties that hold of every value in an association list are kept by
`dupdate` when the update preserves them. -/
theorem dupdate_forall {α : Type} (P : α → Prop) (k : String) (f : α → α)
    (l : List (String × α)) (hf : ∀ a, P a → P (f a))
    (hl : ∀ e ∈ l, P (Prod.snd e)) :
    ∀ e ∈ dupdate k f l, P (Prod.snd e) := by
  induction l with
  | nil => simp [dupdate]
  | cons hd tl ih =>
    obtain ⟨k', v⟩ := hd
    have hv : P v := hl (k', v) (by simp)
    have htl : ∀ e ∈ tl, P (Prod.snd e) := fun e he => hl e (by simp [he])
    intro e he
    rw [dupdate] at he
    by_cases h : k' = k
    · rw [if_pos h] at he
      rcases List.mem_cons.mp he with rfl | he'
      · exact hf v hv
      · exact htl e he'
    · rw [if_neg h] at he
      rcases List.mem_cons.mp he with rfl | he'
      · exact hv
      · exact ih htl e he'

/-- Summing a function over a filtered list equals summing the guarded
function over the whole list. -/
theorem filter_map_sum {α : Type} (p : α → Prop) [DecidablePred p]
    (f : α → ℚ) (l : List α) :
    ((l.filter (fun a => p a)).map f).sum =
      (l.map (fun a => if p a then f a else 0)).sum := by
  induction l with
  | nil => simp
  | cons hd tl ih =>
    by_cases h : p hd <;> simp [List.filter_cons, h, ih]

/-- C4 counterexample: `Claim` construction only checks positivity, so a
claim value with amount 60000 > `max_claim_amount` is successfully
constructed — the bound does not hold of every constructed `Claim`. -/
theorem claim_construction_allows_over_max :
    mkClaim "CX" "P1" "PR1" 60000 "expensive surgery" 0 0 = .ok bigClaim ∧
    bigClaim.amount > 50000 ∧
    bigClaim.amount > ClaimProcessor.init.max_claim_amount :=
  ⟨by rfl, by decide, by decide⟩

/-- C4 amended: every successfully constructed claim has a positive
amount, and the full bound `0 < amount ≤ max_claim_amount` is an invariant
of the claims *stored in the engine*: it holds initially and is preserved
by every engine operation (submission enforces the ceiling and, for
claims that passed construction, positivity). -/
theorem stored_claim_amount_bounds :
    (∀ (i p pr : String) (a : ℚ) (d : String) (ds nw : Nat) (c : Claim),
      mkClaim i p pr a d ds nw = .ok c → 0 < c.amount) ∧
    amountsInv ClaimProcessor.init ∧
    (∀ (s : ClaimProcessor) (p : Patient), amountsInv s →
      amountsInv (s.register_patient p).2) ∧
    (∀ (s : ClaimProcessor) (c : Claim) (nw : Nat), amountsInv s →
      0 < c.amount → amountsInv (s.submit_claim c nw).2) ∧
    (∀ (s : ClaimProcessor) (cid : String) (nw : Nat), amountsInv s →
      amountsInv (s.approve_claim cid nw).2) ∧
    (∀ (s : ClaimProcessor) (cid r : String) (nw : Nat), amountsInv s →
      amountsInv (s.reject_claim cid r nw).2) := by
  refine ⟨?_, ?_, ?_, ?_, ?_, ?_⟩
  · intro i p pr a d ds nw c h
    unfold mkClaim at h
    by_cases h1 : a ≤ 0
    · rw [if_pos h1] at h
      exact absurd h (by simp)
    · rw [if_neg h1] at h
      by_cases h2 : (pyStrip d).length < 5
      · rw [if_pos h2] at h
        exact absurd h (by simp)
      · rw [if_neg h2] at h
        have := Except.ok.inj h
        subst this
        exact not_le.mp h1
  · intro e he
    simp [ClaimProcessor.init] at he
  · intro s p hinv
    unfold ClaimProcessor.register_patient
    split
    · exact hinv
    · intro e he
      exact hinv e he
  · intro s c nw hinv hpos
    unfold ClaimProcessor.submit_claim
    by_cases h1 : (dlookup c.id s.claims).isSome
    · simp only [h1, if_true]
      exact hinv
    · by_cases h2 : (dlookup c.patient_id s.patients).isNone
      · simp only [h1, h2, if_true, if_false, Bool.false_eq_true]
        exact hinv
      · by_cases h3 : c.amount > s.max_claim_amount
        · rw [if_neg h1, if_neg h2, if_pos h3]
          exact hinv
        · rw [if_neg h1, if_neg h2, if_neg h3]
          intro e he
          rcases List.mem_append.mp he with h | h
          · exact hinv e h
          · have he' : e = (c.id, s.process_claim c nw) := by
              simpa using h
            subst he'
            exact ⟨hpos, not_lt.mp h3⟩
  · intro s cid nw hinv
    cases hc : dlookup cid s.claims with
    | none =>
      have heq : s.approve_claim cid nw = (false, s) := by
        unfold ClaimProcessor.approve_claim
        rw [hc]
      rw [heq]
      exact hinv
    | some c =>
      by_cases habs : c.status = ClaimStatus.approved ∨
          c.status = ClaimStatus.rejected
      · have heq : s.approve_claim cid nw = (false, s) := by
          unfold ClaimProcessor.approve_claim
          rw [hc]
          simp [habs]
        rw [heq]
        exact hinv
      · have heq : s.approve_claim cid nw = (true, { s with claims := dupdate cid (fun cl => { cl with status := ClaimStatus.approved, updated_at := nw }) s.claims }) := by
          unfold ClaimProcessor.approve_claim
          rw [hc]
          simp [habs]
        rw [heq]
        have hinv2 : ∀ e ∈ s.claims, 0 < (Prod.snd e).amount ∧
            (Prod.snd e).amount ≤ s.max_claim_amount := hinv
        intro e he
        exact dupdate_forall
          (fun cl => 0 < cl.amount ∧ cl.amount ≤ s.max_claim_amount)
          cid (fun cl => { cl with status := ClaimStatus.approved, updated_at := nw })
          s.claims (fun a ha => ha) hinv2 e he
  · intro s cid r nw hinv
    cases hc : dlookup cid s.claims with
    | none =>
      have heq : s.reject_claim cid r nw = (false, s) := by
        unfold ClaimProcessor.reject_claim
        rw [hc]
      rw [heq]
      exact hinv
    | some c =>
      by_cases habs : c.status = ClaimStatus.approved ∨
          c.status = ClaimStatus.rejected
      · have heq : s.reject_claim cid r nw = (false, s) := by
          unfold ClaimProcessor.reject_claim
          rw [hc]
          simp [habs]
        rw [heq]
        exact hinv
      · have heq : s.reject_claim cid r nw = (true, { s with claims := dupdate cid (fun cl => { cl with status := ClaimStatus.rejected, updated_at := nw }) s.claims }) := by
          unfold ClaimProcessor.reject_claim
          rw [hc]
          simp [habs]
        rw [heq]
        have hinv2 : ∀ e ∈ s.claims, 0 < (Prod.snd e).amount ∧
            (Prod.snd e).amount ≤ s.max_claim_amount := hinv
        intro e he
        exact dupdate_forall
          (fun cl => 0 < cl.amount ∧ cl.amount ≤ s.max_claim_amount)
          cid (fun cl => { cl with status := ClaimStatus.rejected, updated_at := nw })
          s.claims (fun a ha => ha) hinv2 e he

/-- Witness for C4 (amended): the bound holds of the state reached by
submitting `claim75` (positive amount) to `procState1`. -/
theorem stored_claim_amount_bounds_witness : amountsInv procState2 :=
  stored_claim_amount_bounds.2.2.2.1 procState1 claim75 2
    (by intro e he; exact absurd he (List.not_mem_nil e)) (by decide)

/-- C5: `calculate_total_approved_amount` returns the sum of the amounts
of exactly the stored claims of that patient currently approved; it is 0
when no such claim exists, and it never consults the patient registry, so
an unknown patient id yields 0 rather than an error. -/
theorem total_approved_amount_spec (s : ClaimProcessor) (pid : String) :
    s.calculate_total_approved_amount pid = approvedSumSpec s pid ∧
    ((∀ c ∈ s.claims.map Prod.snd,
        ¬(c.patient_id = pid ∧ c.status = ClaimStatus.approved)) →
      s.calculate_total_approved_amount pid = 0) ∧
    (∀ ps, ClaimProcessor.calculate_total_approved_amount
        { s with patients := ps } pid = s.calculate_total_approved_amount pid) := by
  refine ⟨?_, ?_, fun ps => rfl⟩
  · unfold ClaimProcessor.calculate_total_approved_amount approvedSumSpec
    exact filter_map_sum
      (fun c => c.patient_id = pid ∧ c.status = ClaimStatus.approved)
      Claim.amount (s.claims.map Prod.snd)
  · intro h
    unfold ClaimProcessor.calculate_total_approved_amount
    have hnil : (s.claims.map Prod.snd).filter
        (fun c => decide (c.patient_id = pid ∧
          c.status = ClaimStatus.approved)) = [] := by
      rw [List.filter_eq_nil_iff]
      intro a ha
      simpa using h a ha
    rw [hnil]
    rfl

/-- Witness for C5: a patient id with no approved claims (here one that
was never registered) totals to 0 on `procState3`. -/
theorem total_approved_amount_spec_witness :
    procState3.calculate_total_approved_amount "NOBODY" = 0 :=
  (total_approved_amount_spec procState3 "NOBODY").2.1 (by decide)

/-- C7: a token returned by `create_session` validates to that user id; it
keeps validating across `register_user`, other-token `create_session` and
other-token `logout` calls; `logout` returns `True` exactly when the token
is currently active, and after `logout` the token no longer validates. -/
theorem session_roundtrip (s : AuthenticationService) (u token : String) :
    ((s.create_session u token).2 = token ∧
      (s.create_session u token).1.validate_session token = some u) ∧
    ((s.logout token).1 = true ↔ (s.validate_session token).isSome) ∧
    ((s.logout token).2.validate_session token = none) ∧
    (∀ uid em pw ut nw, ((s.register_user uid em pw ut nw).2).validate_session
        token = s.validate_session token) ∧
    (∀ u' t', t' ≠ token →
      (s.create_session u' t').1.validate_session token =
        s.validate_session token) ∧
    (∀ t', t' ≠ token →
      (s.logout t').2.validate_session token = s.validate_session token) := by
  refine ⟨⟨rfl, ?_⟩, ?_, ?_, ?_, ?_, ?_⟩
  · show (if token = token then some u else s.active_sessions token) = some u
    rw [if_pos rfl]
  · unfold AuthenticationService.logout
    by_cases h : (s.active_sessions token).isSome
    · simp [h]
      exact h
    · simp [h]
      simpa using h
  · unfold AuthenticationService.logout
    by_cases h : (s.active_sessions token).isSome
    · simp only [h, if_true]
      show (if token = token then none else s.active_sessions token) = none
      rw [if_pos rfl]
    · simp only [h, Bool.false_eq_true, if_false]
      show s.active_sessions token = none
      cases hx : s.active_sessions token with
      | none => rfl
      | some v => rw [hx] at h; simp at h
  · intro uid em pw ut nw
    show ((s.register_user uid em pw ut nw).2).active_sessions token =
      s.active_sessions token
    unfold AuthenticationService.register_user
    by_cases h1 : (dlookup uid s.users).isSome
    · rw [if_pos h1]
    · rw [if_neg h1]
      by_cases h2 : ¬ emailValid em
      · rw [if_pos h2]
      · rw [if_neg h2]
        by_cases h3 : pw.length < 8
        · rw [if_pos h3]
        · rw [if_neg h3]
  · intro u' t' hne
    show (if token = t' then some u' else s.active_sessions token) =
      s.active_sessions token
    rw [if_neg (fun e => hne (e.symm))]
  · intro t' hne
    unfold AuthenticationService.logout
    by_cases h : (s.active_sessions t').isSome
    · simp only [h, if_true]
      show (if token = t' then none else s.active_sessions token) =
        s.active_sessions token
      rw [if_neg (fun e => hne (e.symm))]
    · simp only [h, Bool.false_eq_true, if_false]

/-- Witness for C7: with two sessions open, logging out the second leaves
the first still validating to its user. -/
theorem session_roundtrip_witness :
    ((AuthenticationService.init.create_session "u1" "tokA").1.logout
      "tokB").2.validate_session "tokA" =
    (AuthenticationService.init.create_session "u1" "tokA").1.validate_session
      "tokA" :=
  (session_roundtrip (AuthenticationService.init.create_session "u1" "tokA").1
    "u1" "tokA").2.2.2.2.2 "tokB" (by decide)

/-- C8 counterexample: when the user id already exists, `register_user`
returns `False` without raising, even though the email is malformed and
the password is shorter than 8 characters — the validation failures do not
produce `ValidationError` in that case, refuting the claim's unconditional
reading. -/
theorem register_user_duplicate_preempts_errors :
    emailValid "bad-email" = false ∧
    "pw".length < 8 ∧
    (dlookup "u1" authState1.users).isSome = true ∧
    (authState1.register_user "u1" "bad-email" "pw" UserType.patient 1).1 =
      .ok false ∧
    (authState1.register_user "u1" "bad-email" "pw" UserType.patient 1).2 =
      authState1 :=
  ⟨by decide, by decide, by decide, rfl, rfl⟩

/-- C8 amended: an already-present id returns `False` with no error and no
change; for a fresh id, a malformed email or a password shorter than 8
characters raises `ValidationError` (state unchanged), and otherwise the
user is stored with `is_active = True` and the call returns `True`. -/
theorem register_user_spec (s : AuthenticationService)
    (uid em pw : String) (ut : UserType) (nw : Nat) :
    ((dlookup uid s.users).isSome →
      s.register_user uid em pw ut nw = (.ok false, s)) ∧
    (dlookup uid s.users = none →
      (emailValid em = false →
        s.register_user uid em pw ut nw = (.error .validation, s)) ∧
      (emailValid em = true → pw.length < 8 →
        s.register_user uid em pw ut nw = (.error .validation, s)) ∧
      (emailValid em = true → ¬ pw.length < 8 →
        (s.register_user uid em pw ut nw).1 = .ok true ∧
        dlookup uid ((s.register_user uid em pw ut nw).2).users =
          some { email := em, password := pw, user_type := ut,
                 created_at := nw, is_active := true })) := by
  constructor
  · intro h
    unfold AuthenticationService.register_user
    rw [if_pos h]
  · intro hn
    have h1 : ¬ (dlookup uid s.users).isSome = true := by
      rw [hn]
      simp
    refine ⟨?_, ?_, ?_⟩
    · intro hbad
      unfold AuthenticationService.register_user
      rw [if_neg h1, if_pos (by simp [hbad])]
    · intro hok hshort
      have hcond : ¬ ¬ (emailValid em = true) := by simp [hok]
      unfold AuthenticationService.register_user
      rw [if_neg h1, if_neg hcond, if_pos hshort]
    · intro hok hlong
      have hcond : ¬ ¬ (emailValid em = true) := by simp [hok]
      have heq : s.register_user uid em pw ut nw =
          (.ok true, { s with users := s.users ++ [(uid,
            { email := em, password := pw, user_type := ut,
              created_at := nw, is_active := true })] }) := by
        unfold AuthenticationService.register_user
        rw [if_neg h1, if_neg hcond, if_neg hlong]
      rw [heq]
      refine ⟨rfl, ?_⟩
      show dlookup uid (s.users ++ [(uid, _)]) = _
      rw [dlookup_append, hn]
      simp [dlookup]

/-- Witness for C8 (amended): registering `"u1"` with a well-formed email
and an 11-character password on a fresh service stores the active user and
returns `True`. -/
theorem register_user_spec_witness :
    (AuthenticationService.init.register_user "u1" "alice@example.com"
      "password123" UserType.patient 0).1 = .ok true ∧
    dlookup "u1" ((AuthenticationService.init.register_user "u1"
      "alice@example.com" "password123" UserType.patient 0).2).users =
      some { email := "alice@example.com", password := "password123",
             user_type := UserType.patient, created_at := 0,
             is_active := true } :=
  ((register_user_spec AuthenticationService.init "u1" "alice@example.com"
    "password123" UserType.patient 0).2 (by rfl)).2.2 (by decide) (by decide)
